import Mathlib

/-!
Shallow embedding of the chat backend's streaming and non-streaming
question-answering pipeline (`backend/llm/qa_headless.py`), the question
route handlers (`backend/routes/chat_routes.py`) and the route utilities
(`backend/routes/chat/utils.py`).

External collaborators (history repository, prompt resolver, completion
client, usage tracker) are modelled as explicit inputs: the token list a
streaming completion produces, the message id and timestamp the repository
assigns, the resolved prompt, the user's settings.  The observable behaviour
of each pipeline run is captured as a trace of events (history writes,
emitted SSE frames, log lines, the final update-by-id), so that ordering and
counting claims become statements about the trace.
-/

/-- HTTP error raised by FastAPI handlers (status code and detail). -/
structure HTTPException where
  status_code : Nat
  detail : String
deriving DecidableEq, Repr

/-- A prompt record as returned by the external prompt resolver:
identifier, title and content. -/
structure Prompt where
  id : String
  title : String
  content : String
deriving DecidableEq, Repr

/-- Request body of the question endpoints (`models.chats.ChatQuestion`):
the question text plus optional generation parameters. -/
structure ChatQuestion where
  question : String
  model : Option String
  temperature : Option ℚ
  max_tokens : Option Nat
  prompt_id : Option String
deriving DecidableEq, Repr

/-- A brain record as returned by `get_brain_by_id`: the fields the
handlers read (model, temperature, max_tokens). -/
structure Brain where
  model : Option String
  temperature : Option ℚ
  max_tokens : Option Nat
deriving DecidableEq, Repr

/-- The slice of `user_settings` the handlers read: the allowed model list
and the daily chat credit. -/
structure UserSettings where
  models : Option (List String)
  daily_chat_credit : Option Nat
deriving DecidableEq, Repr

/-- The langchain streaming callback handler; its internals are opaque to
the embedded code, only its identity as a registered callback matters. -/
structure AsyncIteratorCallbackHandler where
deriving DecidableEq, Repr

/-- The completion-client configuration constructed by `_create_llm`
(the `ChatLiteLLM(...)` constructor call's arguments). -/
structure ChatLiteLLM where
  temperature : ℚ
  model : String
  streaming : Bool
  verbose : Bool
  callbacks : List AsyncIteratorCallbackHandler
deriving DecidableEq, Repr

/-- A role-tagged message of the list sent to the completion client. -/
inductive Message where
  | system (content : String)
  | user (content : String)
  | assistant (content : String)
deriving DecidableEq, Repr

/-- The record passed to `update_chat_history` (`CreateChatHistory`). -/
structure CreateChatHistory where
  chat_id : String
  user_message : String
  assistant : String
  brain_id : Option String
  prompt_id : Option String
deriving DecidableEq, Repr

/-- The message id and timestamp the external history repository assigns
to a newly created history entry. -/
structure CreatedRecord where
  message_id : String
  message_time : String
deriving DecidableEq, Repr

/-- The chat-history output object (`GetChatHistoryOutput`): the entry
state serialized into each SSE frame and returned by `generate_answer`. -/
structure GetChatHistoryOutput where
  chat_id : String
  message_id : String
  message_time : String
  user_message : String
  assistant : String
  prompt_title : Option String
  brain_name : Option String
deriving DecidableEq, Repr

/-- The `HeadlessQA` pydantic model's fields. -/
structure HeadlessQA where
  model : String
  temperature : ℚ
  max_tokens : Nat
  streaming : Bool
  chat_id : String
  callbacks : List AsyncIteratorCallbackHandler
  prompt_id : Option String
deriving DecidableEq, Repr

/-- Outcome of the background completion call `headlessChain.acall` as
driven by the external completion client: success, or an exception whose
message is recorded. -/
inductive CompletionResult where
  | ok
  | error (msg : String)
deriving DecidableEq, Repr

/-- Observable effects of the `wrap_done` wrapper around the background
task: log lines emitted, whether the done event was set, and whether an
exception escaped the wrapper. -/
structure WrapDoneResult where
  logs : List String
  doneSet : Bool
  raised : Bool
deriving DecidableEq, Repr

/-- One observable step of a pipeline run. -/
inductive Event where
  | createLLM (cfg : ChatLiteLLM)
  | createTask
  | predictMessages (msgs : List Message)
  | historyWrite (rec : CreateChatHistory)
  | logToken (t : String)
  | frame (payload : String) (entry : GetChatHistoryOutput)
  | awaitRun (w : WrapDoneResult)
  | messageUpdate (message_id user_message assistant : String)
deriving DecidableEq, Repr

/-- Python truthiness of an optional string: `None` and the empty string
are falsy. -/
def pyTruthyStr : Option String → Bool
  | none => false
  | some s => decide (s ≠ "")

/-- Python truthiness of an optional number: `None` and `0` are falsy. -/
def pyTruthyQ : Option ℚ → Bool
  | none => false
  | some x => decide (x ≠ 0)

/-- Python truthiness of an optional integer: `None` and `0` are falsy. -/
def pyTruthyNat : Option Nat → Bool
  | none => false
  | some n => decide (n ≠ 0)

/-- Python membership test `m in l` where `m` may be `None`
(`None in l` is false for a list of strings). -/
def optInList (m : Option String) (l : List String) : Bool :=
  match m with
  | none => false
  | some s => l.contains s

/-- The fixed default system message (`SYSTEM_MESSAGE` in qa_headless.py). -/
def SYSTEM_MESSAGE : String :=
  "Your name is SpringerAI. You're a helpful assistant. If you don't know the answer, just say that you don't know, don't try to make up an answer.When answering use markdown or any other techniques to display the content in a nice and aerated way."

/-- Modelled from the spec: `format_chat_history` (external history
repository helper) turns stored entries into (user message, assistant
message) pairs in chronological order.  Here history is already given as
such pairs, so the formatting is the identity on them. -/
def format_chat_history (history : List (String × String)) :
    List (String × String) :=
  history

/-- Modelled from the spec: `format_history_to_openai_mesages` (external
helper) builds the ordered message list — the resolved prompt as a leading
system message, then the prior turns, then the new user question. -/
def format_history_to_openai_mesages (history : List (String × String))
    (prompt_content : String) (question : String) : List Message :=
  Message.system prompt_content ::
    (history.flatMap (fun p => [Message.user p.1, Message.assistant p.2])) ++
      [Message.user question]

/-- Modelled from the spec: a minimal JSON string escape for the encoder
below (quotes and backslashes escaped, other characters verbatim). -/
def json_escape (s : String) : String :=
  s.data.foldl
    (fun acc c =>
      if c = Char.ofNat 34 then acc ++ "\\\""
      else if c = Char.ofNat 92 then acc ++ "\\\\"
      else acc.push c)
    ""

/-- Modelled from the spec: JSON encoding of an optional string field
(`null` when absent). -/
def json_opt (v : Option String) : String :=
  match v with
  | none => "null"
  | some s => "\"" ++ json_escape s ++ "\""

/-- Modelled from the spec: `json.dumps(streamed_chat_history.dict())` —
the deterministic JSON serialization of the entry state, fields in
declaration order. -/
def json_dumps (e : GetChatHistoryOutput) : String :=
  "\x7b\"chat_id\": " ++ json_opt (some e.chat_id) ++
    ", \"message_id\": " ++ json_opt (some e.message_id) ++
    ", \"message_time\": " ++ json_opt (some e.message_time) ++
    ", \"user_message\": " ++ json_opt (some e.user_message) ++
    ", \"assistant\": " ++ json_opt (some e.assistant) ++
    ", \"prompt_title\": " ++ json_opt e.prompt_title ++
    ", \"brain_name\": " ++ json_opt e.brain_name ++ "\x7d"

/-- The SSE frame emitted for one token: the string interpolation
`data: ` followed by the JSON-encoded entry state. -/
def sse_render (e : GetChatHistoryOutput) : String :=
  "data: " ++ json_dumps e

/-- `HeadlessQA._create_llm`: constructs the completion-client
configuration.  The source passes the literal `0.1` as temperature to
`ChatLiteLLM`, ignoring both the `temperature` parameter and the
instance's `temperature` field. -/
def HeadlessQA._create_llm (self : HeadlessQA) (model : String)
    (temperature : ℚ) (streaming : Bool)
    (callbacks : List AsyncIteratorCallbackHandler) : ChatLiteLLM :=
  { temperature := 1/10
    model := model
    streaming := streaming
    verbose := true
    callbacks := callbacks }

/-- `wrap_done`: awaits the background completion call inside
`try/except Exception/finally`; an exception is logged
(`Caught exception: ...`) and never re-raised, and the done event is set
on the `finally` path in every case. -/
def wrap_done (r : CompletionResult) : WrapDoneResult :=
  match r with
  | CompletionResult.ok =>
      { logs := [], doneSet := true, raised := false }
  | CompletionResult.error msg =>
      { logs := ["Caught exception: " ++ msg], doneSet := true, raised := false }

/-- The token-emission loop of `generate_stream`
(`async for token in callback.aiter()`): for each token it logs the token,
appends it to `response_tokens`, overwrites the entry's `assistant` field
with the token and yields one SSE frame.  Returns the emitted events and
the final `response_tokens` list. -/
def streamLoop (entry : GetChatHistoryOutput) (tokens : List String)
    (response_tokens : List String) : List Event × List String :=
  match tokens with
  | [] => ([], response_tokens)
  | t :: ts =>
      let entry' : GetChatHistoryOutput := { entry with assistant := t }
      let rest := streamLoop entry' ts (response_tokens ++ [t])
      (Event.logToken t :: Event.frame (sse_render entry') entry' :: rest.1,
       rest.2)

/-- The placeholder record `generate_stream` persists before streaming:
empty assistant text, no brain, the resolved prompt id. -/
def placeholder_record (chat_id : String) (question : ChatQuestion)
    (prompt_to_use : Option Prompt) : CreateChatHistory :=
  { chat_id := chat_id
    user_message := question.question
    assistant := ""
    brain_id := none
    prompt_id := prompt_to_use.map (fun p => p.id) }

/-- The local entry state (`streamed_chat_history`) built from the
persisted placeholder: empty assistant text, stable message id and
timestamp taken from the created record. -/
def initial_streamed_entry (chat_id : String) (question : ChatQuestion)
    (prompt_to_use : Option Prompt) (created : CreatedRecord) :
    GetChatHistoryOutput :=
  { chat_id := chat_id
    message_id := created.message_id
    message_time := created.message_time
    user_message := question.question
    assistant := ""
    prompt_title := prompt_to_use.map (fun p => p.title)
    brain_name := none }

/-- `HeadlessQA.generate_stream` as the trace of its observable steps.
External inputs: the resolved prompt (`prompt_to_use`), the prior history,
the id/timestamp the repository assigns to the placeholder entry
(`created`), the tokens the completion client delivers through the
callback's iterator in production order (`tokens`), and the outcome of the
background completion call (`runResult`).  The trace records, in program
order: the completion-client construction, the background-task launch, the
placeholder history write, the token loop's log lines and SSE frames, the
await of the wrapped background task, and the single final
`update_message_by_id`. -/
def HeadlessQA.generate_stream (self : HeadlessQA) (chat_id : String)
    (question : ChatQuestion) (prompt_to_use : Option Prompt)
    (history : List (String × String)) (created : CreatedRecord)
    (tokens : List String) (runResult : CompletionResult) : List Event :=
  let callback : AsyncIteratorCallbackHandler := {}
  let transformed_history := format_chat_history history
  let prompt_content :=
    match prompt_to_use with
    | some p => p.content
    | none => SYSTEM_MESSAGE
  let _messages :=
    format_history_to_openai_mesages transformed_history prompt_content
      question.question
  let answering_llm := self._create_llm self.model 0 true [callback]
  let streamed_chat_history :=
    initial_streamed_entry chat_id question prompt_to_use created
  let loop := streamLoop streamed_chat_history tokens []
  let assistant := String.join loop.2
  Event.createLLM answering_llm ::
    Event.createTask ::
      Event.historyWrite (placeholder_record chat_id question prompt_to_use) ::
        loop.1 ++
          [Event.awaitRun (wrap_done runResult),
           Event.messageUpdate created.message_id question.question assistant]

/-- `HeadlessQA.generate_answer` (non-streaming): builds the message list,
invokes the completion client synchronously (its returned content is the
external input `prediction`), persists exactly one history entry with the
full answer, and returns the entry enriched with the repository-assigned
id and timestamp.  Result: the trace of observable steps and the returned
output object. -/
def HeadlessQA.generate_answer (self : HeadlessQA) (chat_id : String)
    (question : ChatQuestion) (prompt_to_use : Option Prompt)
    (history : List (String × String)) (prediction : String)
    (created : CreatedRecord) : List Event × GetChatHistoryOutput :=
  let transformed_history := format_chat_history history
  let prompt_content :=
    match prompt_to_use with
    | some p => p.content
    | none => SYSTEM_MESSAGE
  let messages :=
    format_history_to_openai_mesages transformed_history prompt_content
      question.question
  let answering_llm := self._create_llm self.model 0 false self.callbacks
  let answer := prediction
  ([Event.createLLM answering_llm,
    Event.predictMessages messages,
    Event.historyWrite
      { chat_id := chat_id
        user_message := question.question
        assistant := answer
        brain_id := none
        prompt_id := prompt_to_use.map (fun p => p.id) }],
   { chat_id := chat_id
     message_id := created.message_id
     message_time := created.message_time
     user_message := question.question
     assistant := answer
     prompt_title := prompt_to_use.map (fun p => p.title)
     brain_name := none })

/-- Hex digit as accepted by Python's `int(s, 16)`. -/
def isHexDigitChar (c : Char) : Bool :=
  c.isDigit ∨ (97 ≤ c.toNat ∧ c.toNat ≤ 102) ∨ (65 ≤ c.toNat ∧ c.toNat ≤ 70)

/-- Numeric value of a hex digit character. -/
def hexDigitVal (c : Char) : Nat :=
  if c.isDigit then c.toNat - 48
  else if 97 ≤ c.toNat then c.toNat - 87
  else c.toNat - 55

/-- Modelled from the spec: Python's `str.strip` over the two curly-brace
characters — drop every leading and trailing brace. -/
def stripCurly (s : String) : String :=
  let isCurly : Char → Bool := fun c => c.toNat = 123 ∨ c.toNat = 125
  String.mk (((s.data.dropWhile isCurly).reverse.dropWhile isCurly).reverse)

/-- Modelled from the spec: Python's `str.replace(pat, '')` on character
lists — delete every non-overlapping occurrence of the pattern, scanning
left to right.  The fuel argument (initially the string length) only
drives the recursion. -/
def pyRemoveChars (pat : List Char) (fuel : Nat) (s : List Char) :
    List Char :=
  match fuel, s with
  | _, [] => []
  | 0, rest => rest
  | Nat.succ fuel, c :: cs =>
      if pat.isPrefixOf (c :: cs) ∧ pat ≠ [] then
        pyRemoveChars pat fuel ((c :: cs).drop pat.length)
      else
        c :: pyRemoveChars pat fuel cs

/-- Modelled from the spec: Python's `str.replace(pat, '')` on strings. -/
def pyRemove (s pat : String) : String :=
  String.mk (pyRemoveChars pat.data s.data.length s.data)

/-- Modelled from the spec: the standard-library `uuid.UUID(hex)`
constructor used by `NullableUUID.validate` — removes `urn:` and `uuid:`
markers, strips surrounding braces, removes hyphens, and requires exactly
32 hex digits, whose value is the UUID; any other string raises
`ValueError`, here `none`. -/
def pythonUUID (s : String) : Option Nat :=
  let hx := pyRemove (pyRemove s "urn:") "uuid:"
  let hx := stripCurly hx
  let hx := pyRemove hx "-"
  if hx.length = 32 ∧ hx.data.all isHexDigitChar then
    some (hx.data.foldl (fun acc c => 16 * acc + hexDigitVal c) 0)
  else
    none

/-- `NullableUUID.validate` (routes/chat/utils.py): the query-parameter
validator for `brain_id` — the empty string maps to `None`, a string the
UUID constructor rejects maps to `None` via the caught `ValueError`, and
any other string maps to the parsed UUID. -/
def NullableUUID.validate (v : String) : Option Nat :=
  if v = "" then none
  else pythonUUID v

/-- The external per-user usage tracker state: the stored request count
per date key. -/
structure UserUsageState where
  dailyRequestsCount : String → Nat

/-- Modelled from the spec: `UserUsage.handle_increment_user_request_count`
(external usage tracker) increments the stored request count for the given
date key. -/
def handle_increment_user_request_count (u : UserUsageState)
    (date : String) : UserUsageState :=
  { dailyRequestsCount := fun d =>
      if d = date then u.dailyRequestsCount d + 1 else u.dailyRequestsCount d }

/-- `check_user_requests_limit` (routes/chat/utils.py): reads the user's
settings, increments the daily request counter for the current date, reads
the daily chat credit, and returns — the 429 quota rejection is commented
out in the source, so no exception is ever raised. -/
def check_user_requests_limit (usage : UserUsageState)
    (userSettings : UserSettings) (date : String) :
    Except HTTPException UserUsageState :=
  let userDailyUsage := handle_increment_user_request_count usage date
  let _daily_chat_credit := userSettings.daily_chat_credit.getD 0
  Except.ok userDailyUsage

/-- The arguments the handlers pass to the external
`get_answer_generator` factory. -/
structure GeneratorArgs where
  chat_id : String
  model : String
  max_tokens : Option Nat
  temperature : Option ℚ
  brain_id : String
  streaming : Bool
  prompt_id : Option String
deriving DecidableEq, Repr

/-- Outcome of a question handler, projected onto the claims' observables:
the HTTP error raised (if any), the generator-factory invocation (if
reached), and the usage-tracker state afterwards. -/
structure HandlerResult where
  error : Option HTTPException
  generatorArgs : Option GeneratorArgs
  usageAfter : UserUsageState

/-- Python's `str(brain_id)` for an optional id (`str(None)` is the
string `None`). -/
def strOfOptId (brain_id : Option String) : String :=
  match brain_id with
  | none => "None"
  | some b => b

/-- The fallback fill of `chat_question`'s model/temperature/max_tokens
shared by both handlers: each unset (falsy) field is replaced via
`x or fallback`, with the fallbacks themselves overridden by the brain's
truthy fields when a brain id was given and the brain exists. -/
def fill_chat_question (chat_question : ChatQuestion)
    (brain_id : Option String) (brain : Option Brain)
    (fallback_model : String) (fallback_temperature : ℚ)
    (fallback_max_tokens : Nat) : ChatQuestion :=
  let fm :=
    match brain_id, brain with
    | some _, some b =>
        if pyTruthyStr b.model then b.model.getD fallback_model
        else fallback_model
    | _, _ => fallback_model
  let ft :=
    match brain_id, brain with
    | some _, some b =>
        if pyTruthyQ b.temperature then b.temperature.getD fallback_temperature
        else fallback_temperature
    | _, _ => fallback_temperature
  let fmt :=
    match brain_id, brain with
    | some _, some b =>
        if pyTruthyNat b.max_tokens then b.max_tokens.getD fallback_max_tokens
        else fallback_max_tokens
    | _, _ => fallback_max_tokens
  { chat_question with
      model :=
        if pyTruthyStr chat_question.model then chat_question.model
        else some fm
      temperature :=
        if pyTruthyQ chat_question.temperature then chat_question.temperature
        else some ft
      max_tokens :=
        if pyTruthyNat chat_question.max_tokens then chat_question.max_tokens
        else some fmt }

/-- The non-streaming handler's fallback fill: applied when model,
temperature or max_tokens is falsy, with fixed fallbacks
`gpt-3.5-turbo` / 0.1 / 512 (overridden by the brain's fields when
available). -/
def question_with_fallbacks (chat_question : ChatQuestion)
    (brain_id : Option String) (brain : Option Brain) : ChatQuestion :=
  if ¬ pyTruthyStr chat_question.model
      ∨ ¬ pyTruthyQ chat_question.temperature
      ∨ ¬ pyTruthyNat chat_question.max_tokens then
    fill_chat_question chat_question brain_id brain "gpt-3.5-turbo" (1/10) 512
  else chat_question

/-- The streaming handler's fallback fill: applied when model is falsy,
temperature is `None` (a set temperature of 0 does not trigger the fill),
or max_tokens is falsy, with fixed fallbacks `gpt-3.5-turbo` / 0 / 256. -/
def stream_question_with_fallbacks (chat_question : ChatQuestion)
    (brain_id : Option String) (brain : Option Brain) : ChatQuestion :=
  if ¬ pyTruthyStr chat_question.model
      ∨ chat_question.temperature = none
      ∨ ¬ pyTruthyNat chat_question.max_tokens then
    fill_chat_question chat_question brain_id brain "gpt-3.5-turbo" 0 256
  else chat_question

/-- `create_question_handler` (POST /chat/chat_id/question): authorization
check, fallback fill of unset parameters (condition: model, temperature or
max_tokens falsy), usage-limit check, allowed-model check substituting
`gpt-3.5-turbo` when the requested model is not in the user's list, then
generator construction with `streaming=False`. -/
def create_question_handler (chat_id : String)
    (chat_question : ChatQuestion) (brain_id : Option String)
    (authError : Option HTTPException) (user_settings : UserSettings)
    (brain : Option Brain) (usage : UserUsageState) (date : String)
    (user_id : String) : HandlerResult :=
  match authError with
  | some e => { error := some e, generatorArgs := none, usageAfter := usage }
  | none =>
    let _is_model_ok :=
      optInList chat_question.model (user_settings.models.getD ["gpt-3.5-turbo"])
    let cq := question_with_fallbacks chat_question brain_id brain
    match check_user_requests_limit usage user_settings date with
    | Except.error e =>
        { error := some e, generatorArgs := none, usageAfter := usage }
    | Except.ok usage' =>
        let is_model_ok :=
          optInList cq.model (user_settings.models.getD ["gpt-3.5-turbo"])
        { error := none
          generatorArgs := some
            { chat_id := chat_id
              model :=
                match cq.model with
                | some m => if is_model_ok then m else "gpt-3.5-turbo"
                | none => "gpt-3.5-turbo"
              max_tokens := cq.max_tokens
              temperature := cq.temperature
              brain_id := strOfOptId brain_id
              streaming := false
              prompt_id := cq.prompt_id }
          usageAfter := usage' }

/-- `create_stream_question_handler` (POST /chat/chat_id/question/stream):
authorization check, fallback fill (condition: model falsy, temperature
`is None`, or max_tokens falsy; fallbacks 0 and 256), no usage-limit call
(commented out in the source), allowed-model check substituting
`gpt-3.5-turbo`, then generator construction with `streaming=True`. -/
def create_stream_question_handler (chat_id : String)
    (chat_question : ChatQuestion) (brain_id : Option String)
    (authError : Option HTTPException) (user_settings : UserSettings)
    (brain : Option Brain) (usage : UserUsageState)
    (user_id : String) : HandlerResult :=
  match authError with
  | some e => { error := some e, generatorArgs := none, usageAfter := usage }
  | none =>
    let cq := stream_question_with_fallbacks chat_question brain_id brain
    let is_model_ok :=
      optInList cq.model (user_settings.models.getD ["gpt-3.5-turbo"])
    { error := none
      generatorArgs := some
        { chat_id := chat_id
          model :=
            match cq.model with
            | some m => if is_model_ok then m else "gpt-3.5-turbo"
            | none => "gpt-3.5-turbo"
          max_tokens := cq.max_tokens
          temperature := cq.temperature
          brain_id := strOfOptId brain_id
          streaming := true
          prompt_id := cq.prompt_id }
      usageAfter := usage }

/-- The entry states carried by the SSE frame events of a trace. -/
def framesOf (tr : List Event) : List GetChatHistoryOutput :=
  tr.filterMap (fun e =>
    match e with
    | Event.frame _ en => some en
    | _ => none)

/-- The rendered payload strings of the SSE frame events of a trace,
paired with the entry state each one encodes. -/
def framePairsOf (tr : List Event) : List (String × GetChatHistoryOutput) :=
  tr.filterMap (fun e =>
    match e with
    | Event.frame p en => some (p, en)
    | _ => none)

/-- The `update_chat_history` records of a trace (history-entry
creations). -/
def historyWritesOf (tr : List Event) : List CreateChatHistory :=
  tr.filterMap (fun e =>
    match e with
    | Event.historyWrite r => some r
    | _ => none)

/-- The `update_message_by_id` calls of a trace, as
(message id, user message, assistant text) triples. -/
def updatesOf (tr : List Event) : List (String × String × String) :=
  tr.filterMap (fun e =>
    match e with
    | Event.messageUpdate i u a => some (i, u, a)
    | _ => none)

/-- The completion-client configurations constructed in a trace. -/
def llmsOf (tr : List Event) : List ChatLiteLLM :=
  tr.filterMap (fun e =>
    match e with
    | Event.createLLM c => some c
    | _ => none)

/-- Closed form of the token-emission loop's event list: one log line and
one frame per token, the frame's entry being the initial entry with its
assistant field overwritten by that token. -/
def loopEvents (entry : GetChatHistoryOutput) (tokens : List String) :
    List Event :=
  tokens.flatMap (fun t =>
    [Event.logToken t,
     Event.frame (sse_render { entry with assistant := t })
       { entry with assistant := t }])

theorem streamLoop_eq (entry : GetChatHistoryOutput)
    (tokens acc : List String) :
    streamLoop entry tokens acc = (loopEvents entry tokens, acc ++ tokens) := by
  induction tokens generalizing entry acc with
  | nil => simp [streamLoop, loopEvents]
  | cons t ts ih =>
      simp [streamLoop, loopEvents, ih]

theorem framesOf_loopEvents (entry : GetChatHistoryOutput)
    (tokens : List String) :
    framesOf (loopEvents entry tokens) =
      tokens.map (fun t => { entry with assistant := t }) := by
  induction tokens with
  | nil => simp [loopEvents, framesOf]
  | cons t ts ih => simp [loopEvents, framesOf] at ih ⊢; exact ih

theorem framePairsOf_loopEvents (entry : GetChatHistoryOutput)
    (tokens : List String) :
    framePairsOf (loopEvents entry tokens) =
      tokens.map (fun t =>
        (sse_render { entry with assistant := t },
         { entry with assistant := t })) := by
  induction tokens with
  | nil => simp [loopEvents, framePairsOf]
  | cons t ts ih => simp [loopEvents, framePairsOf] at ih ⊢; exact ih

theorem historyWritesOf_loopEvents (entry : GetChatHistoryOutput)
    (tokens : List String) :
    historyWritesOf (loopEvents entry tokens) = [] := by
  induction tokens with
  | nil => simp [loopEvents, historyWritesOf]
  | cons t ts ih => simp [loopEvents, historyWritesOf] at ih ⊢; exact ih

theorem updatesOf_loopEvents (entry : GetChatHistoryOutput)
    (tokens : List String) :
    updatesOf (loopEvents entry tokens) = [] := by
  induction tokens with
  | nil => simp [loopEvents, updatesOf]
  | cons t ts ih => simp [loopEvents, updatesOf] at ih ⊢; exact ih

theorem llmsOf_loopEvents (entry : GetChatHistoryOutput)
    (tokens : List String) :
    llmsOf (loopEvents entry tokens) = [] := by
  induction tokens with
  | nil => simp [loopEvents, llmsOf]
  | cons t ts ih => simp [loopEvents, llmsOf] at ih ⊢; exact ih

/-- The trace of `generate_stream`, unfolded to its global shape:
completion-client construction, background-task launch, placeholder
write, the loop's events, the await of the wrapped task, and the single
final update carrying the concatenation of all tokens. -/
theorem generate_stream_eq (self : HeadlessQA) (chat_id : String)
    (question : ChatQuestion) (prompt_to_use : Option Prompt)
    (history : List (String × String)) (created : CreatedRecord)
    (tokens : List String) (runResult : CompletionResult) :
    HeadlessQA.generate_stream self chat_id question prompt_to_use history
        created tokens runResult =
      Event.createLLM (self._create_llm self.model 0 true [{}]) ::
        Event.createTask ::
          Event.historyWrite (placeholder_record chat_id question prompt_to_use) ::
            loopEvents (initial_streamed_entry chat_id question prompt_to_use created)
                tokens ++
              [Event.awaitRun (wrap_done runResult),
               Event.messageUpdate created.message_id question.question
                 (String.join tokens)] := by
  unfold HeadlessQA.generate_stream
  simp [streamLoop_eq]

/-- C1: in the streaming path, after the token-emission loop has ended and
the background task has been awaited, the final assistant text persisted
via `update_message_by_id` equals the concatenation, in emission order, of
every token appended during the loop, and exactly one such update appears
in the trace. -/
theorem claim_C1 (self : HeadlessQA) (chat_id : String)
    (question : ChatQuestion) (prompt_to_use : Option Prompt)
    (history : List (String × String)) (created : CreatedRecord)
    (tokens : List String) (runResult : CompletionResult) :
    updatesOf (HeadlessQA.generate_stream self chat_id question prompt_to_use
        history created tokens runResult) =
      [(created.message_id, question.question,
        String.join
          ((framesOf (HeadlessQA.generate_stream self chat_id question
              prompt_to_use history created tokens runResult)).map
            (fun e => e.assistant)))] := by
  rw [generate_stream_eq]
  have h1 := updatesOf_loopEvents
    (initial_streamed_entry chat_id question prompt_to_use created) tokens
  have h2 := framesOf_loopEvents
    (initial_streamed_entry chat_id question prompt_to_use created) tokens
  simp only [updatesOf, framesOf] at h1 h2 ⊢
  simp [h1, h2, Function.comp_def]

/-- C2: within one streaming request, the frames carry the tokens in the
exact order the completion client produced them; the placeholder history
write precedes every frame; and the finalizing update is the last event,
preceded immediately by the await of the (always-completed) wrapped
background task, with every frame emitted before that await. -/
theorem claim_C2 (self : HeadlessQA) (chat_id : String)
    (question : ChatQuestion) (prompt_to_use : Option Prompt)
    (history : List (String × String)) (created : CreatedRecord)
    (tokens : List String) (runResult : CompletionResult) :
    ((framesOf (HeadlessQA.generate_stream self chat_id question prompt_to_use
        history created tokens runResult)).map (fun e => e.assistant) = tokens)
    ∧ (∃ pre suf,
        HeadlessQA.generate_stream self chat_id question prompt_to_use history
            created tokens runResult =
          pre ++
            Event.historyWrite (placeholder_record chat_id question prompt_to_use)
              :: suf
          ∧ framesOf pre = [])
    ∧ (∃ pre,
        HeadlessQA.generate_stream self chat_id question prompt_to_use history
            created tokens runResult =
          pre ++
            [Event.awaitRun (wrap_done runResult),
             Event.messageUpdate created.message_id question.question
               (String.join tokens)]
          ∧ framesOf pre =
              framesOf (HeadlessQA.generate_stream self chat_id question
                prompt_to_use history created tokens runResult)) := by
  refine ⟨?_, ?_, ?_⟩
  · rw [generate_stream_eq]
    have h2 := framesOf_loopEvents
      (initial_streamed_entry chat_id question prompt_to_use created) tokens
    simp only [framesOf] at h2 ⊢
    simp [h2, Function.comp_def]
  · refine ⟨[Event.createLLM (self._create_llm self.model 0 true [{}]),
        Event.createTask],
      loopEvents (initial_streamed_entry chat_id question prompt_to_use created)
          tokens ++
        [Event.awaitRun (wrap_done runResult),
         Event.messageUpdate created.message_id question.question
           (String.join tokens)],
      ?_, ?_⟩
    · rw [generate_stream_eq]; simp
    · simp [framesOf]
  · refine ⟨Event.createLLM (self._create_llm self.model 0 true [{}]) ::
        Event.createTask ::
          Event.historyWrite (placeholder_record chat_id question prompt_to_use)
            :: loopEvents
                (initial_streamed_entry chat_id question prompt_to_use created)
                tokens,
      ?_, ?_⟩
    · rw [generate_stream_eq]
    · rw [generate_stream_eq]
      simp [framesOf]

/-- C3: an exception from the background completion call is caught and
logged by `wrap_done`, never re-raised; the done signal is set whether the
task succeeds or fails; and after a failure the stream still consists of
exactly the tokens produced, with the persisted record finalized with that
partial concatenated text. -/
theorem claim_C3 (m : String) (self : HeadlessQA) (chat_id : String)
    (question : ChatQuestion) (prompt_to_use : Option Prompt)
    (history : List (String × String)) (created : CreatedRecord)
    (tokens : List String) :
    (wrap_done CompletionResult.ok).raised = false
    ∧ (wrap_done (CompletionResult.error m)).raised = false
    ∧ (wrap_done CompletionResult.ok).doneSet = true
    ∧ (wrap_done (CompletionResult.error m)).doneSet = true
    ∧ (wrap_done (CompletionResult.error m)).logs = ["Caught exception: " ++ m]
    ∧ (framesOf (HeadlessQA.generate_stream self chat_id question prompt_to_use
        history created tokens (CompletionResult.error m))).map
          (fun e => e.assistant) = tokens
    ∧ updatesOf (HeadlessQA.generate_stream self chat_id question prompt_to_use
        history created tokens (CompletionResult.error m)) =
      [(created.message_id, question.question, String.join tokens)] := by
  refine ⟨rfl, rfl, rfl, rfl, rfl, ?_, ?_⟩
  · rw [generate_stream_eq]
    have h2 := framesOf_loopEvents
      (initial_streamed_entry chat_id question prompt_to_use created) tokens
    simp only [framesOf] at h2 ⊢
    simp [h2, Function.comp_def]
  · rw [generate_stream_eq]
    have h1 := updatesOf_loopEvents
      (initial_streamed_entry chat_id question prompt_to_use created) tokens
    simp only [updatesOf] at h1 ⊢
    simp [h1]

/-- C4: each pulled token yields exactly one SSE frame, whose payload is
`data: ` followed by the JSON-encoded entry state, and whose entry has the
assistant field overwritten with that single latest token. -/
theorem claim_C4 (self : HeadlessQA) (chat_id : String)
    (question : ChatQuestion) (prompt_to_use : Option Prompt)
    (history : List (String × String)) (created : CreatedRecord)
    (tokens : List String) (runResult : CompletionResult) :
    framePairsOf (HeadlessQA.generate_stream self chat_id question prompt_to_use
        history created tokens runResult) =
      tokens.map (fun t =>
        ("data: " ++
           json_dumps
             { initial_streamed_entry chat_id question prompt_to_use created with
                 assistant := t },
         { initial_streamed_entry chat_id question prompt_to_use created with
             assistant := t })) := by
  rw [generate_stream_eq]
  have h := framePairsOf_loopEvents
    (initial_streamed_entry chat_id question prompt_to_use created) tokens
  simp only [framePairsOf] at h ⊢
  simp [h, sse_render]

/-- C5: exactly one chat-history entry is created per question in both
paths; in the streaming path its assistant text is written as the empty
placeholder at creation and exactly once more with the final concatenated
text, while the non-streaming path writes it exactly once with the full
answer and issues no later update. -/
theorem claim_C5 (self : HeadlessQA) (chat_id : String)
    (question : ChatQuestion) (prompt_to_use : Option Prompt)
    (history : List (String × String)) (prediction : String)
    (created createdS : CreatedRecord) (tokens : List String)
    (runResult : CompletionResult) :
    (historyWritesOf (HeadlessQA.generate_answer self chat_id question
        prompt_to_use history prediction created).1).length = 1
    ∧ (historyWritesOf (HeadlessQA.generate_answer self chat_id question
        prompt_to_use history prediction created).1).map (fun r => r.assistant) =
        [prediction]
    ∧ updatesOf (HeadlessQA.generate_answer self chat_id question prompt_to_use
        history prediction created).1 = []
    ∧ (historyWritesOf (HeadlessQA.generate_stream self chat_id question
        prompt_to_use history createdS tokens runResult)).length = 1
    ∧ (historyWritesOf (HeadlessQA.generate_stream self chat_id question
        prompt_to_use history createdS tokens runResult)).map
          (fun r => r.assistant) = [""]
    ∧ updatesOf (HeadlessQA.generate_stream self chat_id question prompt_to_use
        history createdS tokens runResult) =
        [(createdS.message_id, question.question, String.join tokens)] := by
  have hw := historyWritesOf_loopEvents
    (initial_streamed_entry chat_id question prompt_to_use createdS) tokens
  have hu := updatesOf_loopEvents
    (initial_streamed_entry chat_id question prompt_to_use createdS) tokens
  refine ⟨?_, ?_, ?_, ?_, ?_, ?_⟩
  · simp [HeadlessQA.generate_answer, historyWritesOf]
  · simp [HeadlessQA.generate_answer, historyWritesOf]
  · simp [HeadlessQA.generate_answer, updatesOf]
  · rw [generate_stream_eq]
    simp only [historyWritesOf] at hw ⊢
    simp [hw]
  · rw [generate_stream_eq]
    simp only [historyWritesOf] at hw ⊢
    simp [hw, placeholder_record]
  · rw [generate_stream_eq]
    simp only [updatesOf] at hu ⊢
    simp [hu]

/-- C7: every frame of one streaming request carries the placeholder
entry's stable message id and timestamp, and blanking the assistant field
of any frame's entry recovers exactly the placeholder entry — only the
assistant field varies between frames. -/
theorem claim_C7 (self : HeadlessQA) (chat_id : String)
    (question : ChatQuestion) (prompt_to_use : Option Prompt)
    (history : List (String × String)) (created : CreatedRecord)
    (tokens : List String) (runResult : CompletionResult) :
    ((framesOf (HeadlessQA.generate_stream self chat_id question prompt_to_use
        history created tokens runResult)).map
          (fun e => { e with assistant := "" }) =
      List.replicate tokens.length
        (initial_streamed_entry chat_id question prompt_to_use created))
    ∧ ((framesOf (HeadlessQA.generate_stream self chat_id question prompt_to_use
        history created tokens runResult)).map (fun e => e.message_id) =
      List.replicate tokens.length created.message_id)
    ∧ ((framesOf (HeadlessQA.generate_stream self chat_id question prompt_to_use
        history created tokens runResult)).map (fun e => e.message_time) =
      List.replicate tokens.length created.message_time) := by
  have h2 := framesOf_loopEvents
    (initial_streamed_entry chat_id question prompt_to_use created) tokens
  refine ⟨?_, ?_, ?_⟩ <;>
    · rw [generate_stream_eq]
      simp only [framesOf, initial_streamed_entry] at h2 ⊢
      simp [h2, Function.comp_def, List.map_const']

/-- C9: the completion-client configuration is constructed with
temperature 0.1 regardless of the temperature argument of `_create_llm`
and of the instance's temperature field — two runs differing only in
requested temperature construct identical configurations, in both the
non-streaming and the streaming path. -/
theorem claim_C9 (self : HeadlessQA) (tf1 tf2 t1 t2 : ℚ) (model : String)
    (streaming : Bool) (callbacks : List AsyncIteratorCallbackHandler)
    (chat_id : String) (question : ChatQuestion)
    (prompt_to_use : Option Prompt) (history : List (String × String))
    (created : CreatedRecord) (tokens : List String)
    (runResult : CompletionResult) (prediction : String) :
    (HeadlessQA._create_llm { self with temperature := tf1 } model t1
        streaming callbacks =
      HeadlessQA._create_llm { self with temperature := tf2 } model t2
        streaming callbacks)
    ∧ (HeadlessQA._create_llm self model t1 streaming callbacks).temperature
        = 1/10
    ∧ (llmsOf (HeadlessQA.generate_stream { self with temperature := tf1 }
          chat_id question prompt_to_use history created tokens runResult) =
        llmsOf (HeadlessQA.generate_stream { self with temperature := tf2 }
          chat_id question prompt_to_use history created tokens runResult))
    ∧ (llmsOf (HeadlessQA.generate_answer { self with temperature := tf1 }
          chat_id question prompt_to_use history prediction created).1 =
        llmsOf (HeadlessQA.generate_answer { self with temperature := tf2 }
          chat_id question prompt_to_use history prediction created).1) := by
  exact ⟨rfl, rfl, rfl, rfl⟩

theorem fill_chat_question_model (cq : ChatQuestion)
    (brain_id : Option String) (brain : Option Brain) (fm : String)
    (ft : ℚ) (fmt : Nat) (h : pyTruthyStr cq.model = true) :
    (fill_chat_question cq brain_id brain fm ft fmt).model = cq.model := by
  simp [fill_chat_question, h]

theorem question_with_fallbacks_model (cq : ChatQuestion)
    (brain_id : Option String) (brain : Option Brain)
    (h : pyTruthyStr cq.model = true) :
    (question_with_fallbacks cq brain_id brain).model = cq.model := by
  unfold question_with_fallbacks
  split
  · exact fill_chat_question_model cq brain_id brain _ _ _ h
  · rfl

theorem stream_question_with_fallbacks_model (cq : ChatQuestion)
    (brain_id : Option String) (brain : Option Brain)
    (h : pyTruthyStr cq.model = true) :
    (stream_question_with_fallbacks cq brain_id brain).model = cq.model := by
  unfold stream_question_with_fallbacks
  split
  · exact fill_chat_question_model cq brain_id brain _ _ _ h
  · rfl

/-- C6 is refuted on the code: with the requested model `claude-9` absent
from the user's allowed list, the non-streaming handler raises no error at
all and invokes the generator factory with the substituted fallback model
`gpt-3.5-turbo`, and the streaming handler behaves the same way — there is
no HTTP 400/429 rejection before generator invocation. -/
theorem claim_C6_counterexample :
    ((create_question_handler "chat1"
        { question := "hi", model := some "claude-9", temperature := some 1,
          max_tokens := some 100, prompt_id := none }
        (some "b1") none
        { models := some ["gpt-3.5-turbo"], daily_chat_credit := some 10 }
        none { dailyRequestsCount := fun _ => 0 } "20231101" "user1").error
      = none)
    ∧ ((create_question_handler "chat1"
        { question := "hi", model := some "claude-9", temperature := some 1,
          max_tokens := some 100, prompt_id := none }
        (some "b1") none
        { models := some ["gpt-3.5-turbo"], daily_chat_credit := some 10 }
        none { dailyRequestsCount := fun _ => 0 } "20231101" "user1").generatorArgs
      = some
          { chat_id := "chat1", model := "gpt-3.5-turbo",
            max_tokens := some 100, temperature := some 1, brain_id := "b1",
            streaming := false, prompt_id := none })
    ∧ ((create_stream_question_handler "chat1"
        { question := "hi", model := some "claude-9", temperature := some 1,
          max_tokens := some 100, prompt_id := none }
        (some "b1") none
        { models := some ["gpt-3.5-turbo"], daily_chat_credit := some 10 }
        none { dailyRequestsCount := fun _ => 0 } "user1").error = none)
    ∧ ((create_stream_question_handler "chat1"
        { question := "hi", model := some "claude-9", temperature := some 1,
          max_tokens := some 100, prompt_id := none }
        (some "b1") none
        { models := some ["gpt-3.5-turbo"], daily_chat_credit := some 10 }
        none { dailyRequestsCount := fun _ => 0 } "user1").generatorArgs
      = some
          { chat_id := "chat1", model := "gpt-3.5-turbo",
            max_tokens := some 100, temperature := some 1, brain_id := "b1",
            streaming := true, prompt_id := none }) := by
  refine ⟨rfl, ?_, rfl, ?_⟩ <;> decide

/-- C6 (amended): when a request names a model (a nonempty model string)
that is not in the user's allowed model list, neither question endpoint
fails — each handler proceeds without raising, silently substitutes
`gpt-3.5-turbo` for the requested model, and invokes the answer
generator. -/
theorem claim_C6_amended (chat_id : String) (chat_question : ChatQuestion)
    (brain_id : Option String) (user_settings : UserSettings)
    (brain : Option Brain) (usage : UserUsageState) (date user_id : String)
    (m : String) (hm : chat_question.model = some m) (hne : m ≠ "")
    (hnotin : (user_settings.models.getD ["gpt-3.5-turbo"]).contains m
        = false) :
    ((create_question_handler chat_id chat_question brain_id none
        user_settings brain usage date user_id).error = none
     ∧ ∃ args,
         (create_question_handler chat_id chat_question brain_id none
             user_settings brain usage date user_id).generatorArgs = some args
         ∧ args.model = "gpt-3.5-turbo")
    ∧ ((create_stream_question_handler chat_id chat_question brain_id none
        user_settings brain usage user_id).error = none
       ∧ ∃ args,
           (create_stream_question_handler chat_id chat_question brain_id none
               user_settings brain usage user_id).generatorArgs = some args
           ∧ args.model = "gpt-3.5-turbo") := by
  have htr : pyTruthyStr chat_question.model = true := by
    simp [pyTruthyStr, hm, hne]
  have h1 : (question_with_fallbacks chat_question brain_id brain).model
      = some m := by
    rw [question_with_fallbacks_model _ _ _ htr, hm]
  have h2 : (stream_question_with_fallbacks chat_question brain_id brain).model
      = some m := by
    rw [stream_question_with_fallbacks_model _ _ _ htr, hm]
  have hnotin' : ¬ m ∈ user_settings.models.getD ["gpt-3.5-turbo"] := by
    simpa using hnotin
  refine ⟨⟨rfl, ?_⟩, ⟨rfl, ?_⟩⟩
  · refine ⟨_, rfl, ?_⟩
    simp [create_question_handler, check_user_requests_limit, h1, optInList,
      hnotin']
  · refine ⟨_, rfl, ?_⟩
    simp [create_stream_question_handler, h2, optInList, hnotin']

/-- Witness for the amended C6 at a concrete input: requested model
`gpt-6` is outside the allowed list, both handlers return no error and
pass `gpt-3.5-turbo` to the generator factory. -/
theorem claim_C6_witness :
    ((create_question_handler "c"
        { question := "q", model := some "gpt-6", temperature := some 1,
          max_tokens := some 9, prompt_id := none }
        none none { models := some ["gpt-3.5-turbo"], daily_chat_credit := none }
        none { dailyRequestsCount := fun _ => 0 } "20231101" "u").error = none
     ∧ ∃ args,
         (create_question_handler "c"
             { question := "q", model := some "gpt-6", temperature := some 1,
               max_tokens := some 9, prompt_id := none }
           none none
           { models := some ["gpt-3.5-turbo"], daily_chat_credit := none }
           none { dailyRequestsCount := fun _ => 0 } "20231101" "u").generatorArgs
           = some args
         ∧ args.model = "gpt-3.5-turbo")
    ∧ ((create_stream_question_handler "c"
          { question := "q", model := some "gpt-6", temperature := some 1,
            max_tokens := some 9, prompt_id := none }
          none none
          { models := some ["gpt-3.5-turbo"], daily_chat_credit := none }
          none { dailyRequestsCount := fun _ => 0 } "u").error = none
       ∧ ∃ args,
           (create_stream_question_handler "c"
               { question := "q", model := some "gpt-6", temperature := some 1,
                 max_tokens := some 9, prompt_id := none }
             none none
             { models := some ["gpt-3.5-turbo"], daily_chat_credit := none }
             none { dailyRequestsCount := fun _ => 0 } "u").generatorArgs
             = some args
           ∧ args.model = "gpt-3.5-turbo") :=
  claim_C6_amended "c"
    { question := "q", model := some "gpt-6", temperature := some 1,
      max_tokens := some 9, prompt_id := none }
    none { models := some ["gpt-3.5-turbo"], daily_chat_credit := none }
    none { dailyRequestsCount := fun _ => 0 } "20231101" "u" "gpt-6" rfl
    (by decide) (by decide)

/-- C8: the `brain_id` validator is total on strings — the empty string
maps to None, any string the UUID constructor rejects maps to None
instead of raising, and any parseable UUID string maps to the parsed
UUID. -/
theorem claim_C8 :
    NullableUUID.validate "" = none
    ∧ (∀ s : String, pythonUUID s = none → NullableUUID.validate s = none)
    ∧ (∀ (s : String) (u : Nat), pythonUUID s = some u →
        NullableUUID.validate s = some u) := by
  refine ⟨rfl, ?_, ?_⟩
  · intro s h
    unfold NullableUUID.validate
    by_cases hs : s = "" <;> simp [hs, h]
  · intro s u h
    unfold NullableUUID.validate
    by_cases hs : s = ""
    · subst hs
      rw [show pythonUUID "" = none from rfl] at h
      exact Option.noConfusion h
    · simp [hs, h]

/-- Witness for C8 at concrete inputs: a malformed brain id is accepted
and validates to None rather than raising. -/
theorem claim_C8_witness :
    pythonUUID "not-a-uuid" = none
    ∧ NullableUUID.validate "not-a-uuid" = none :=
  ⟨by decide, claim_C8.2.1 "not-a-uuid" (by decide)⟩

/-- C10: `check_user_requests_limit` never raises a quota-exceeded error —
for every usage state, user settings (hence every daily request count and
daily chat credit) and date, it returns normally with the user's daily
request counter for that date incremented by one. -/
theorem claim_C10 (usage : UserUsageState) (settings : UserSettings)
    (date : String) :
    ∃ updated,
      check_user_requests_limit usage settings date = Except.ok updated
      ∧ updated.dailyRequestsCount date = usage.dailyRequestsCount date + 1 := by
  refine ⟨_, rfl, ?_⟩
  simp [handle_increment_user_request_count]
